import Mathlib

/-!
Verification development for the HPD → Toolswift pricing integration.

The Python modules are shallowly embedded here:
* `src/src/hpd/models.py` → `Product`
* `src/hpd/pricing.py`    → `compute_final_price`, `compute_priced_catalog`
* `src/hpd/auth.py`       → `generate_nonce`, `md5_base64`, `generate_auth_header`
* `src/hpd/api.py`        → `post_model`, `get_model`, `get_full_catalog_model`, `unwrap_result`
* `src/hpd/toolswift.py`  → `start_toolswift_upload_with_json`
* `src/main.py`           → `main_run_job`
* `src/src/handlers.py`   → `lambda_run_job`

Numeric prices are embedded as rationals (`ℚ`); the pricing arithmetic of the
source (`floor(x * 1.4) + 0.99`, `round(x, 2)`) is carried out exactly, with
the two-decimal Python `round` modelled as round-half-to-even on `ℚ`.
-/

namespace FlightcraftHPD

/-- Product record, from `src/src/hpd/models.py`.  The dataclass annotates
`CADmap`, `USDmap` and `Price` as `float`, but no validation is performed and
JSON `null` flows through unchecked; the pricing code tests these fields with
`is not None`, so they are embedded as `Option ℚ`. -/
structure Product where
  PartNumber : String
  Description : String
  Title : String
  Category : String
  AltCode : String
  Model : String
  Available : ℚ
  OnOrder : ℚ
  Discontinued : Bool
  ModifiedOn : Option String
  AddedOn : Option String
  CADmap : Option ℚ
  USDmap : Option ℚ
  Manufacturer : String
  ETA : Option String
  Price : Option ℚ
  deriving DecidableEq

/-- Round half to even on `ℚ`, the tie-breaking rule of the Python `round` builtin. -/
def roundHalfEven (q : ℚ) : ℤ :=
  let n := ⌊q⌋
  let r := q - n
  if r < 1/2 then n
  else if 1/2 < r then n + 1
  else if n % 2 = 0 then n else n + 1

/-- Python `round(q, 2)` on exact rationals. -/
def round2 (q : ℚ) : ℚ := (roundHalfEven (q * 100) : ℚ) / 100

/-- The Python guard pattern `x if (x is not None and x > 0) else None`
(`src/hpd/pricing.py`): a negative, zero or null field counts as absent. -/
def posOf (o : Option ℚ) : Option ℚ :=
  match o with
  | some x => if 0 < x then some x else none
  | none => none

/-- The minimum-margin price of `src/hpd/pricing.py`:
`floor(cost_price * 1.3) + 0.99`. -/
def marginFloor (cost : ℚ) : ℚ := (⌊cost * (13/10)⌋ : ℚ) + 99/100

/-- `compute_final_price` from `src/hpd/pricing.py`, field for field:
`conv_cad`/`conv_usd`/`conv_cost` candidates (each guarded with
`is not None and > 0`, i.e. `posOf`), first-non-`None` base price,
margin floor from cost, strict `<` comparison, `round(_, 2)` at the end,
`0.0` when no candidate exists. -/
def compute_final_price (p : Product) : ℚ :=
  let conv_cad : Option ℚ := posOf p.CADmap
  let conv_usd : Option ℚ :=
    (posOf p.USDmap).map fun u => (⌊u * (14/10)⌋ : ℚ) + 99/100
  let conv_cost : Option ℚ :=
    (posOf p.Price).map fun c => (⌊c * (175/100)⌋ : ℚ) + 99/100
  let base_price : Option ℚ :=
    match conv_cad with
    | some v => some v
    | none =>
      match conv_usd with
      | some v => some v
      | none => conv_cost
  let min_margin : Option ℚ := (posOf p.Price).map marginFloor
  let final_price : Option ℚ :=
    match base_price, min_margin with
    | some b, some m => if b < m then some m else some b
    | b, _ => b
  match final_price with
  | none => 0
  | some f => round2 f

/-- One entry of the priced catalog, the dict literal built inside
`compute_priced_catalog` (`src/hpd/pricing.py`).  `isActive` is assigned
`p.Discontinued` directly in the source. -/
structure PricedEntry where
  SKU : String
  finalPrice : ℚ
  costPrice : Option ℚ
  isActive : Bool
  inventoryOnlineStore : ℤ
  deriving DecidableEq

/-- Python `int()` on a rational: truncation toward zero. -/
def pyTrunc (q : ℚ) : ℤ := Int.tdiv q.num q.den

/-- The dict built per product by `compute_priced_catalog`. -/
def pricedEntryOf (p : Product) : PricedEntry :=
  { SKU := p.PartNumber
  , finalPrice := compute_final_price p
  , costPrice := p.Price
  , isActive := p.Discontinued
  , inventoryOnlineStore := pyTrunc p.Available }

/-- `compute_priced_catalog` from `src/hpd/pricing.py`: a list comprehension
over the input products. -/
def compute_priced_catalog (products : List Product) : List PricedEntry :=
  products.map pricedEntryOf

/-- Base candidate exactly as worded by the priority list of the spec
(§4.3 rules 1–4). -/
def specBase (p : Product) : Option ℚ :=
  match posOf p.CADmap with
  | some c => some c
  | none =>
    match posOf p.USDmap with
    | some u => some ((⌊u * (14/10)⌋ : ℚ) + 99/100)
    | none =>
      match posOf p.Price with
      | some c => some ((⌊c * (175/100)⌋ : ℚ) + 99/100)
      | none => none

/-- Final price exactly as worded in the spec: base candidate, margin floor
replacing a lower base when `CostPrice > 0`, rounded to 2 decimals, `0`
when no candidate exists. -/
def specPrice (p : Product) : ℚ :=
  match specBase p with
  | none => 0
  | some b =>
    match posOf p.Price with
    | some c => if b < marginFloor c then round2 (marginFloor c) else round2 b
    | none => round2 b

/-! Request signing (`src/hpd/auth.py`) -/

/-- The cryptographic primitives used by `src/hpd/auth.py` (`hashlib.md5`,
`hmac` with `hashlib.sha256`, `base64.b64encode`).  They are Python standard
library functions, external to this repository, so they are abstracted as an
arbitrary pair of string functions: every theorem below holds for any
interpretation of them. -/
structure HashPrims where
  md5b64core : String → String
  hmacSha256b64 : String → String → String

/-- `md5_base64` from `src/hpd/auth.py`: the fixed base64(MD5("")) constant
for a falsy (empty) input, base64(MD5(content)) otherwise. -/
def md5_base64 (prims : HashPrims) (content : String) : String :=
  if content = "" then "1B2M2Y8AsgTpgAmY7PhCfg==" else prims.md5b64core content

/-- `string.ascii_letters + string.digits`, the alphabet sampled by
`generate_nonce`. -/
def nonceAlphabet : List Char :=
  "abcdefghijklmnopqrstuvwxyzABCDEFGHIJKLMNOPQRSTUVWXYZ0123456789".toList

/-- One draw of `random.choices` over the 62-character alphabet. -/
def nthAlpha (n : Fin 62) : Char := nonceAlphabet.getD n.val 'a'

/-- `generate_nonce` from `src/hpd/auth.py`: `length` independent draws
(default 16) from letters+digits; the random source is passed in explicitly
as `draws`. -/
def generate_nonce (draws : ℕ → Fin 62) (length : ℕ := 16) : String :=
  String.mk ((List.range length).map fun i => nthAlpha (draws i))

/-- Python `f"{x}"` on an optional string: `None` prints as `"None"`. -/
def pyStr (o : Option String) : String := o.getD "None"

/-- Python exceptions (and spec §7 error classes) relevant to the embedded
code paths.  `transportError` and `configurationError` are modelled from the
§7 taxonomy of the spec: no such classes exist anywhere under `src/`. -/
inductive PyErr where
  | attributeError
  | typeError
  | keyError
  | valueError (msg : String)
  | httpStatusError (status : ℕ)
  | transportError
  | configurationError
  deriving DecidableEq

/-- `generate_auth_header` from `src/hpd/auth.py`.  `appId`/`apiKey` model the
module-level `os.getenv` results (`None` when unset); the timestamp
(`str(int(time.time()))`) and the random draws of the nonce are explicit inputs.
The message f-string renders a missing `APP_ID` as the literal `"None"`;
`API_KEY.encode()` on a missing key raises `AttributeError`.  No
configuration validation is performed by the source. -/
def generate_auth_header (prims : HashPrims) (appId apiKey : Option String)
    (method path : String) (query : String := "") (body : String := "")
    (t : ℕ := 0) (draws : ℕ → Fin 62 := fun _ => 0) : Except PyErr String :=
  let methodU := method.toUpper
  let pathL := path.toLower
  let timestamp := toString t
  let nonce := generate_nonce draws
  let body_md5 := md5_base64 prims body
  let message :=
    pyStr appId ++ methodU ++ pathL ++ query ++ timestamp ++ nonce ++ body_md5
  match apiKey with
  | none => .error .attributeError
  | some key =>
    let digest := prims.hmacSha256b64 key message
    .ok ("smx " ++ pyStr appId ++ ":" ++ digest ++ ":" ++ timestamp ++ ":" ++ nonce)

/-! JSON serialization model (`json.dumps` / httpx request encoding)

`json.dumps` and the httpx `json=` body encoding are Python standard-library /
third-party behaviour, external to this repository; they are modelled here
for flat JSON objects (a list of key/value pairs in insertion order, values
restricted to scalars), which covers the payloads the claims are about.
String serialization assumes keys/values without characters that need JSON
escaping. -/

inductive Atom where
  | anull
  | abool (b : Bool)
  | aint (n : ℤ)
  | astr (s : String)
  deriving DecidableEq

def atomDumps : Atom → String
  | .anull => "null"
  | .abool true => "true"
  | .abool false => "false"
  | .aint n => toString n
  | .astr s => "\"" ++ s ++ "\""

/-- Lexicographic code-point comparison, the Python `str <` on which
`sort_keys` sorting is based. -/
def listCharLt : List Char → List Char → Bool
  | _, [] => false
  | [], _ :: _ => true
  | a :: as, b :: bs =>
    if a.toNat < b.toNat then true
    else if b.toNat < a.toNat then false
    else listCharLt as bs

def pyStrLt (a b : String) : Bool := listCharLt a.toList b.toList

def insertKv (kv : String × Atom) : List (String × Atom) → List (String × Atom)
  | [] => [kv]
  | h :: t => if pyStrLt kv.1 h.1 then kv :: h :: t else h :: insertKv kv t

/-- Ascending insertion sort by key: the effect of `sort_keys=True`. -/
def sortKvs : List (String × Atom) → List (String × Atom)
  | [] => []
  | h :: t => insertKv h (sortKvs t)

/-- `json.dumps` on a flat object with the given `separators=(itemSep, kvSep)`
and `sort_keys` choice. -/
def jsonDumpsFlat (sortKeys : Bool) (itemSep kvSep : String)
    (kvs : List (String × Atom)) : String :=
  let kvs := if sortKeys then sortKvs kvs else kvs
  "\x7b" ++
    String.intercalate itemSep
      (kvs.map fun kv => "\"" ++ kv.1 ++ "\"" ++ kvSep ++ atomDumps kv.2) ++
  "\x7d"

/-! POST helper (`src/hpd/api.py`) -/

/-- The outbound POST request assembled by `post` in `src/hpd/api.py`:
`body_str = json.dumps(data, sort_keys=True, separators=(",", ":"))` is passed
to the signer, while the HTTP body is produced by `httpx.post(..., json=data)`,
whose encoder serializes the dict itself — compact separators, insertion
order, no key sorting (older httpx versions additionally use spaced
separators; in either case the insertion order of the dict is kept). -/
structure PostRequest where
  url : String
  authSignedBody : String
  transmittedBody : String

def post_model (endpoint : String) (data : List (String × Atom)) : PostRequest :=
  { url := "https://api.hpd.ca" ++ endpoint
  , authSignedBody := jsonDumpsFlat true "," ":" data
  , transmittedBody := jsonDumpsFlat false "," ":" data }

/-! GET helper and catalog fetch (`src/hpd/api.py`) -/

/-- `httpx.RequestError`: network-layer failures raised by the transport. -/
inductive RequestErr where
  | timeout
  | dnsFailure
  | connectionReset
  deriving DecidableEq

/-- An HTTP response as seen by `get`: status code, whether the
`content-type` header contains `application/json`, the parsed JSON body
(of type `α`), and the raw text. -/
structure HttpResp (α : Type) where
  status : ℕ
  isJson : Bool
  body : α
  text : String

/-- Python value returned by `get`: parsed JSON, raw text, or `None`. -/
inductive GetResult (α : Type) where
  | jsonVal (v : α)
  | textVal (s : String)
  | noneVal
  deriving DecidableEq

/-- `get` from `src/hpd/api.py` as a function of the transport outcome.
`httpx.RequestError` is caught (the source prints and returns `None`);
`raise_for_status` raises `httpx.HTTPStatusError` on 4xx/5xx, which is *not*
a `RequestError` and therefore propagates out of the `try` block. -/
def get_model {α : Type} (t : Except RequestErr (HttpResp α)) :
    Except PyErr (GetResult α) :=
  match t with
  | .error _ => .ok .noneVal
  | .ok r =>
    if 400 ≤ r.status then .error (.httpStatusError r.status)
    else if r.isJson then .ok (.jsonVal r.body)
    else .ok (.textVal r.text)

/-- The vendor envelope `{success, result, errors}` (spec §4.2); `errors` is
kept as its rendered payload string. -/
structure Envelope (α : Type) where
  success : Bool
  result : α
  errors : String

/-- `unwrap_result` from `src/hpd/api.py`: `result` on a truthy `success`,
otherwise `raise ValueError(f"API Error: {errors}")`. -/
def unwrap_result {α : Type} (response : Envelope α) : Except PyErr α :=
  if response.success then .ok response.result
  else .error (.valueError ("API Error: " ++ response.errors))

/-- One cell of a catalog row.  Python stores row values untyped; rows whose
cells do not carry the shape the `Product` dataclass fields are used with
are outside this model. -/
inductive CellVal where
  | cnull
  | cbool (b : Bool)
  | cnum (q : ℚ)
  | cstr (s : String)
  deriving DecidableEq

/-- The `result` payload of `GET /full_catalog`: `{columns, rows}`. -/
structure CatalogResult where
  columns : List String
  rows : List (List CellVal)

/-- Lookup in `dict(zip(columns, row))`: `zip` truncates to the shorter
list, a duplicated column keeps the last value. -/
def dictZipLookup (cols : List String) (row : List CellVal) (k : String) :
    Option CellVal :=
  List.lookup k (cols.zip row).reverse

def cellStr : Option CellVal → Option String
  | some (.cstr s) => some s
  | _ => none

def cellNum : Option CellVal → Option ℚ
  | some (.cnum q) => some q
  | _ => none

def cellBool : Option CellVal → Option Bool
  | some (.cbool b) => some b
  | _ => none

def cellOptStr : Option CellVal → Option (Option String)
  | some (.cstr s) => some (some s)
  | some .cnull => some none
  | _ => none

def cellOptNum : Option CellVal → Option (Option ℚ)
  | some (.cnum q) => some (some q)
  | some .cnull => some none
  | _ => none

/-- The field names of the `Product` dataclass (`src/src/hpd/models.py`). -/
def productFieldNames : List String :=
  ["PartNumber", "Description", "Title", "Category", "AltCode", "Model",
   "Available", "OnOrder", "Discontinued", "ModifiedOn", "AddedOn",
   "CADmap", "USDmap", "Manufacturer", "ETA", "Price"]

/-- `Product(**dict(zip(columns, row)))`: fails (Python `TypeError`) when the
zipped dict contains a key that is not a dataclass field or misses a required
field; otherwise builds the record from the looked-up cells. -/
def buildProduct (cols : List String) (row : List CellVal) : Option Product :=
  let d := cols.zip row
  if d.all (fun kv => productFieldNames.contains kv.1) then do
    let pn ← cellStr (dictZipLookup cols row "PartNumber")
    let desc ← cellStr (dictZipLookup cols row "Description")
    let title ← cellStr (dictZipLookup cols row "Title")
    let cat ← cellStr (dictZipLookup cols row "Category")
    let alt ← cellStr (dictZipLookup cols row "AltCode")
    let mdl ← cellStr (dictZipLookup cols row "Model")
    let avail ← cellNum (dictZipLookup cols row "Available")
    let onOrder ← cellNum (dictZipLookup cols row "OnOrder")
    let disc ← cellBool (dictZipLookup cols row "Discontinued")
    let modOn ← cellOptStr (dictZipLookup cols row "ModifiedOn")
    let addOn ← cellOptStr (dictZipLookup cols row "AddedOn")
    let cad ← cellOptNum (dictZipLookup cols row "CADmap")
    let usd ← cellOptNum (dictZipLookup cols row "USDmap")
    let manu ← cellStr (dictZipLookup cols row "Manufacturer")
    let eta ← cellOptStr (dictZipLookup cols row "ETA")
    let price ← cellOptNum (dictZipLookup cols row "Price")
    pure ⟨pn, desc, title, cat, alt, mdl, avail, onOrder, disc, modOn,
      addOn, cad, usd, manu, eta, price⟩
  else none

/-- The list comprehension of `get_full_catalog`: one `Product` per row, in
row order; the first failing row aborts the construction. -/
def rowsToProducts (cols : List String) : List (List CellVal) → Option (List Product)
  | [] => some []
  | r :: rs =>
    match buildProduct cols r, rowsToProducts cols rs with
    | some p, some ps => some (p :: ps)
    | _, _ => none

/-- `get_full_catalog` from `src/hpd/api.py` as a function of the transport
outcome.  `response.get("success")` on the `None` (or text) returned by `get`
raises `AttributeError`; a falsy `success` raises
`ValueError(f"API Error: {errors}")`; otherwise each row is zipped against
`columns` into a `Product`. -/
def get_full_catalog_model
    (t : Except RequestErr (HttpResp (Envelope CatalogResult))) :
    Except PyErr (List Product) :=
  match get_model t with
  | .error e => .error e
  | .ok .noneVal => .error .attributeError
  | .ok (.textVal _) => .error .attributeError
  | .ok (.jsonVal env) =>
    if env.success then
      match rowsToProducts env.result.columns env.result.rows with
      | some ps => .ok ps
      | none => .error .typeError
    else .error (.valueError ("API Error: " ++ env.errors))

/-! Toolswift handoff (`src/hpd/toolswift.py`) -/

/-- Python truthiness of an optional string (`os.getenv` result): `None` and
`""` are falsy. -/
def truthy (o : Option String) : Bool :=
  match o with
  | some s => !s.isEmpty
  | none => false

/-- The environment configuration read by `start_toolswift_upload_with_json`. -/
structure ToolswiftConfig where
  toolswiftUrl : Option String
  toolswiftApiBase : Option String
  storeKey : Option String
  bearerToken : Option String

/-- `TOOLSWIFT_URL or TOOLSWIFT_API_BASE or "https://demo.api.toolswift.ca"`,
then `.rstrip("/")`. -/
def toolswiftBase (cfg : ToolswiftConfig) : String :=
  (if truthy cfg.toolswiftUrl then cfg.toolswiftUrl.getD ""
   else if truthy cfg.toolswiftApiBase then cfg.toolswiftApiBase.getD ""
   else "https://demo.api.toolswift.ca").dropRightWhile (· = '/')

/-- The outbound request assembled by `start_toolswift_upload_with_json`. -/
structure ToolswiftRequest where
  url : String
  headers : List (String × String)
  payload : List (String × Atom)
  deriving DecidableEq

/-- `start_toolswift_upload_with_json` from `src/hpd/toolswift.py`, up to the
outbound request: validates the two env credentials (raising `ValueError`),
then posts `{"Location": location_url, "upsert": True}` to
`{base}/products/json-bulk-upload`.  The `priced_catalog` and `product_count`
arguments appear nowhere in the request. -/
def start_toolswift_upload_with_json (cfg : ToolswiftConfig)
    (priced_catalog : List PricedEntry) (product_count : ℕ)
    (location_url : Option String := none) : Except PyErr ToolswiftRequest :=
  if !truthy cfg.storeKey then
    .error (.valueError "TOOLSWIFT_STORE_KEY is not set in environment variables")
  else if !truthy cfg.bearerToken then
    .error (.valueError "TOOLSWIFT_BEARER_TOKEN is not set in environment variables")
  else
    .ok
      { url := toolswiftBase cfg ++ "/products/json-bulk-upload"
      , headers :=
          [("x-store-key", cfg.storeKey.getD ""),
           ("Authorization", "Bearer " ++ cfg.bearerToken.getD ""),
           ("Content-Type", "application/json")]
      , payload :=
          [("Location",
            match location_url with
            | some u => Atom.astr u
            | none => Atom.anull),
           ("upsert", Atom.abool true)] }

/-! Orchestrators (`src/main.py` and `src/src/handlers.py`)

Each `run_job` is embedded as a pure function of an environment record that
fixes the outcome of every external call (fetch, upload, emails, Toolswift,
S3); the function returns the result record of the run together with the ordered
trace of attempted side effects. -/

inductive JobEvent where
  | wroteTempFile (name : String)
  | uploadAttempt
  | deleteTempFileAttempt
  | startEmailAttempt
  | errorEmailAttempt
  | toolswiftLocationMode (url : String)
  | toolswiftJsonFallback
  deriving DecidableEq

/-- Outcomes of the external calls made by `run_job` in `src/main.py`. -/
structure MainEnv where
  fetchResult : Except String (List Product)
  uploadResult : Except String String
  startEmailResult : Except String Unit
  toolswiftResult : Except String Unit
  deleteResult : Except String Unit
  saveOutputFiles : Bool
  ts : String

/-- The result dict returned by `run_job` in `src/main.py`. -/
structure MainRunResult where
  count : ℕ
  file : Option String
  saved_files : Bool
  location_url : Option String
  deriving DecidableEq

def tempFileName (env : MainEnv) : String :=
  "HPD_API_PRODUCTS_PRICED_" ++ env.ts ++ ".json"

/-- `run_job` from `src/main.py`.  A fetch failure propagates (no handler).
The upload `try` swallows its failure and leaves `remote_location = None`;
on success the temp file is deleted unless `SAVE_OUTPUT_FILES` (deletion
failure swallowed).  The Toolswift block is wrapped in an outer `try` that
swallows any failure, with the start-email attempt in an inner swallowed
`try`; a falsy `remote_location` (None or `""`) selects the json-fallback
call `start_toolswift_upload_with_json(priced, len(priced))`.  The result
dict reports the file only when `SAVE_OUTPUT_FILES` and the file still
exists. -/
def main_run_job (env : MainEnv) :
    Except String (MainRunResult × List JobEvent) :=
  match env.fetchResult with
  | .error e => .error e
  | .ok products =>
    let priced := compute_priced_catalog products
    let fname := tempFileName env
    let ev1 : List JobEvent := [.wroteTempFile fname, .uploadAttempt]
    let remoteAndEv : Option String × List JobEvent :=
      match env.uploadResult with
      | .ok loc =>
        if env.saveOutputFiles then (some loc, ev1)
        else (some loc, ev1 ++ [.deleteTempFileAttempt])
      | .error _ => (none, ev1)
    let remote := remoteAndEv.1
    let ev2 := remoteAndEv.2 ++ [.startEmailAttempt]
    let ev3 :=
      match remote with
      | some loc =>
        if loc = "" then ev2 ++ [.toolswiftJsonFallback]
        else ev2 ++ [.toolswiftLocationMode loc]
      | none => ev2 ++ [.toolswiftJsonFallback]
    let fileStillExists : Bool :=
      match env.uploadResult with
      | .ok _ => env.saveOutputFiles
      | .error _ => true
    .ok
      ({ count := priced.length
       , file := if env.saveOutputFiles && fileStillExists then some fname else none
       , saved_files := env.saveOutputFiles
       , location_url := remote }, ev3)

/-- Outcomes of the external calls made by `run_job` in
`src/src/handlers.py`. -/
structure LambdaEnv where
  fetchResult : Except String (List Product)
  startEmailResult : Except String Unit
  bucketName : Option String
  putResult : Except String Unit
  presignResult : Except String String
  toolswiftResult : Except String Unit
  errorEmailResult : Except String Unit
  ts : String

/-- The result dict returned by `run_job` in `src/src/handlers.py`:
`s3_key`/`timestamp` are reported only if the corresponding local variable
had been assigned before the S3/Toolswift block failed. -/
structure LambdaRunResult where
  count : ℕ
  s3_key : Option String
  timestamp : Option String
  deriving DecidableEq

def s3KeyName (env : LambdaEnv) : String :=
  "pricing_data/priced_catalog_" ++ env.ts ++ ".json"

/-- `run_job` from `src/src/handlers.py`.  A fetch failure triggers an
error-notification attempt and re-raises.  The start-email attempt is
swallowed.  Inside the staging/handoff `try`: `os.environ` lookup of `S3_BUCKET_NAME`
raises `KeyError` when unset (before `timestamp`/`s3_key` are assigned);
`put_object`, the presign call and the Toolswift call fail after `s3_key`
and `timestamp` are assigned.  The `except` swallows the failure and
attempts an error notification (itself swallowed).  Exactly one result dict
is produced on the non-fetch-failure path. -/
def lambda_run_job (env : LambdaEnv) :
    Except String (LambdaRunResult × List JobEvent) :=
  match env.fetchResult with
  | .error e => .error e
  | .ok products =>
    let priced := compute_priced_catalog products
    let ev1 : List JobEvent := [.startEmailAttempt]
    let keyTsEv : Option String × Option String × List JobEvent :=
      match env.bucketName with
      | none => (none, none, ev1 ++ [.errorEmailAttempt])
      | some _ =>
        let key := s3KeyName env
        match env.putResult with
        | .error _ => (some key, some env.ts, ev1 ++ [.errorEmailAttempt])
        | .ok _ =>
          match env.presignResult with
          | .error _ => (some key, some env.ts, ev1 ++ [.errorEmailAttempt])
          | .ok url =>
            match env.toolswiftResult with
            | .error _ =>
              (some key, some env.ts,
               ev1 ++ [.toolswiftLocationMode url, .errorEmailAttempt])
            | .ok _ =>
              (some key, some env.ts, ev1 ++ [.toolswiftLocationMode url])
    .ok
      ({ count := priced.length
       , s3_key := keyTsEv.1
       , timestamp := keyTsEv.2.1 }, keyTsEv.2.2)

/-! Concrete fixtures used by witnesses and counterexamples -/

/-- A product with only the given price inputs and discontinued flag set. -/
def mkTestProduct (cad usd cost : Option ℚ) (disc : Bool) : Product :=
  { PartNumber := "PN-1", Description := "d", Title := "t", Category := "c"
  , AltCode := "a", Model := "m", Available := 5, OnOrder := 0
  , Discontinued := disc, ModifiedOn := none, AddedOn := none
  , CADmap := cad, USDmap := usd, Manufacturer := "mf", ETA := none
  , Price := cost }

def prodCost100 : Product := mkTestProduct none none (some 100) false

def prodEmpty : Product := mkTestProduct none none none false

def prodDisc : Product := mkTestProduct (some 10) none none true

def prims0 : HashPrims := { md5b64core := fun _ => "MD5", hmacSha256b64 := fun _ _ => "SIG" }

def draws0 : ℕ → Fin 62 := fun _ => 0

/-- A catalog row matching `productFieldNames` column for column. -/
def row0 : List CellVal :=
  [.cstr "PN-1", .cstr "d", .cstr "t", .cstr "c", .cstr "a", .cstr "m",
   .cnum 5, .cnum 0, .cbool false, .cnull, .cnull,
   .cnull, .cnull, .cstr "mf", .cnull, .cnum 100]

/-- A successful full-catalog HTTP response carrying one row. -/
def resp0 : HttpResp (Envelope CatalogResult) :=
  { status := 200, isJson := true
  , body := { success := true
            , result := { columns := productFieldNames, rows := [row0] }
            , errors := "" }
  , text := "" }

def cfg0 : ToolswiftConfig :=
  { toolswiftUrl := none, toolswiftApiBase := none
  , storeKey := some "sk", bearerToken := some "tok" }

/-- A main-variant run whose staging upload raises. -/
def envMainStageFail : MainEnv :=
  { fetchResult := .ok [], uploadResult := .error "boom"
  , startEmailResult := .ok (), toolswiftResult := .ok ()
  , deleteResult := .ok (), saveOutputFiles := false, ts := "T" }

/-- A Lambda-variant run whose `put_object` call raises. -/
def envLambdaPutFail : LambdaEnv :=
  { fetchResult := .ok [], startEmailResult := .ok ()
  , bucketName := some "bkt", putResult := .error "boom"
  , presignResult := .ok "https://ex/u", toolswiftResult := .ok ()
  , errorEmailResult := .ok (), ts := "T" }

/-! Helper lemmas -/

theorem roundHalfEven_ge_floor (q : ℚ) : (⌊q⌋ : ℤ) ≤ roundHalfEven q := by
  unfold roundHalfEven
  dsimp only
  split_ifs <;> omega

/-- A value at least a two-decimal grid point stays at least that grid point
after rounding to two decimals. -/
theorem round2_ge_grid (k : ℤ) (x : ℚ) (h : (k : ℚ) + 99/100 ≤ x) :
    (k : ℚ) + 99/100 ≤ round2 x := by
  have h1 : ((100 * k + 99 : ℤ) : ℚ) ≤ x * 100 := by push_cast; linarith
  have h2 : (100 * k + 99 : ℤ) ≤ ⌊x * 100⌋ := Int.le_floor.mpr h1
  have h3 : (100 * k + 99 : ℤ) ≤ roundHalfEven (x * 100) :=
    le_trans h2 (roundHalfEven_ge_floor _)
  have h4 : ((100 * k + 99 : ℤ) : ℚ) ≤ (roundHalfEven (x * 100) : ℚ) := by
    exact_mod_cast h3
  unfold round2
  push_cast at h4
  linarith

theorem cfp_eq_spec (p : Product) : compute_final_price p = specPrice p := by
  unfold compute_final_price specPrice specBase
  rcases ha : posOf p.CADmap with _ | v <;>
    rcases hb : posOf p.USDmap with _ | u <;>
    rcases hc : posOf p.Price with _ | c <;>
    simp only [Option.map_some', Option.map_none'] <;>
    split_ifs <;> rfl

theorem cfp_margin (p : Product) (c : ℚ) (hc : posOf p.Price = some c) :
    marginFloor c ≤ compute_final_price p := by
  unfold compute_final_price
  rw [hc]
  rcases ha : posOf p.CADmap with _ | v <;>
    rcases hb : posOf p.USDmap with _ | u <;>
    simp only [Option.map_some', Option.map_none'] <;>
    split_ifs with h <;>
    · first
      | exact round2_ge_grid _ _ le_rfl
      | exact round2_ge_grid _ _ (le_of_not_lt h)

theorem cfp_zero (p : Product) (h1 : posOf p.CADmap = none)
    (h2 : posOf p.USDmap = none) (h3 : posOf p.Price = none) :
    compute_final_price p = 0 := by
  unfold compute_final_price
  rw [h1, h2, h3]
  rfl

theorem rowsToProducts_length (cols : List String) :
    ∀ (rows : List (List CellVal)) (ps : List Product),
      rowsToProducts cols rows = some ps → ps.length = rows.length := by
  intro rows
  induction rows with
  | nil => intro ps h; cases h; rfl
  | cons r rs ih =>
    intro ps h
    unfold rowsToProducts at h
    rcases hb : buildProduct cols r with _ | p <;> rw [hb] at h
    · exact absurd h (by simp)
    · rcases hr : rowsToProducts cols rs with _ | qs <;> rw [hr] at h
      · exact absurd h (by simp)
      · cases h
        simp [ih qs hr]

theorem rowsToProducts_get (cols : List String) :
    ∀ (rows : List (List CellVal)) (ps : List Product),
      rowsToProducts cols rows = some ps →
      ∀ (i : ℕ) (h1 : i < ps.length) (h2 : i < rows.length),
        buildProduct cols (rows.get ⟨i, h2⟩) = some (ps.get ⟨i, h1⟩) := by
  intro rows
  induction rows with
  | nil => intro ps _ i _ h2; exact absurd h2 (by simp)
  | cons r rs ih =>
    intro ps h i h1 h2
    unfold rowsToProducts at h
    rcases hb : buildProduct cols r with _ | p <;> rw [hb] at h
    · exact absurd h (by simp)
    · rcases hr : rowsToProducts cols rs with _ | qs <;> rw [hr] at h
      · exact absurd h (by simp)
      · cases h
        cases i with
        | zero => exact hb
        | succ j =>
          exact ih qs hr j (Nat.lt_of_succ_lt_succ h1) (Nat.lt_of_succ_lt_succ h2)

/-! Claims -/

/-- C1: `compute_final_price` realizes the priority rule CADmap →
`floor(USDmap*1.4)+0.99` → `floor(CostPrice*1.75)+0.99` → 0, with the margin
floor `floor(CostPrice*1.3)+0.99` replacing a lower base candidate whenever
`CostPrice > 0`; the result is at least the margin floor whenever
`CostPrice > 0`, is 0 when no usable price input exists, and is rounded to
two decimals; negative or null fields count as absent. -/
theorem claim_C1 (p : Product) :
    compute_final_price p = specPrice p ∧
    (∀ c, posOf p.Price = some c → marginFloor c ≤ compute_final_price p) ∧
    (posOf p.CADmap = none → posOf p.USDmap = none → posOf p.Price = none →
      compute_final_price p = 0) :=
  ⟨cfp_eq_spec p, fun c hc => cfp_margin p c hc, cfp_zero p⟩

theorem claim_C1_witness :
    marginFloor 100 ≤ compute_final_price prodCost100 ∧
    compute_final_price prodEmpty = 0 :=
  ⟨(claim_C1 prodCost100).2.1 100 rfl, (claim_C1 prodEmpty).2.2 rfl rfl rfl⟩

/-- C2: the code sets `isActive` to `p.Discontinued` itself, not to its
negation — a discontinued product comes out with `isActive = true`. -/
theorem claim_C2 :
    prodDisc.Discontinued = true ∧
    (compute_priced_catalog [prodDisc]).map PricedEntry.isActive = [true] :=
  ⟨rfl, rfl⟩

/-- C3: for `place_order({"b": 1, "a": 2})` the body string handed to the
signer (sorted keys, tight separators) differs from the body httpx
transmits for `json=data` (insertion order) — the signed bytes do not match
the transmitted bytes. -/
theorem claim_C3 :
    (post_model "/place_order" [("b", Atom.aint 1), ("a", Atom.aint 2)]).authSignedBody ≠
    (post_model "/place_order" [("b", Atom.aint 1), ("a", Atom.aint 2)]).transmittedBody := by
  decide

/-- C4: the credential is `smx {appId}:{signature}:{t}:{nonce}` with
`signature` the base64 HMAC-SHA256 of
`appId ++ METHOD ++ path ++ query ++ t ++ nonce ++ body_digest` (no
separators, uppercased method, lowercased path), the empty-body digest is
the fixed base64(MD5("")) constant, and the nonce has 16 alphanumeric
characters. -/
theorem claim_C4 (prims : HashPrims) (appId key : String)
    (method path query body : String) (t : ℕ) (draws : ℕ → Fin 62) :
    generate_auth_header prims (some appId) (some key) method path query body t draws =
      .ok ("smx " ++ appId ++ ":" ++
        prims.hmacSha256b64 key
          (appId ++ method.toUpper ++ path.toLower ++ query ++ toString t ++
            generate_nonce draws ++ md5_base64 prims body) ++
        ":" ++ toString t ++ ":" ++ generate_nonce draws) ∧
    md5_base64 prims "" = "1B2M2Y8AsgTpgAmY7PhCfg==" ∧
    (generate_nonce draws).length = 16 ∧
    (∀ ch ∈ (generate_nonce draws).toList, ch.isAlphanum = true) := by
  refine ⟨rfl, rfl, ?_, ?_⟩
  · simp [generate_nonce, String.length]
  · intro ch hch
    simp only [generate_nonce, String.toList, String.mk, List.mem_map] at hch
    obtain ⟨i, _, hi⟩ := hch
    have halpha : ∀ n : Fin 62, (nthAlpha n).isAlphanum = true := by decide
    exact hi ▸ halpha (draws i)

theorem claim_C4_witness :
    (generate_nonce draws0).length = 16 ∧ Char.isAlphanum 'a' = true :=
  ⟨(claim_C4 prims0 "app" "key" "get" "/P" "" "" 0 draws0).2.2.1,
   (claim_C4 prims0 "app" "key" "get" "/P" "" "" 0 draws0).2.2.2 'a' (by decide)⟩

/-- C5: `compute_priced_catalog` yields one entry per product, in input
order, with the SKU sequence equal to the PartNumber sequence. -/
theorem claim_C5 (products : List Product) :
    (compute_priced_catalog products).length = products.length ∧
    (compute_priced_catalog products).map PricedEntry.SKU =
      products.map Product.PartNumber := by
  constructor
  · simp [compute_priced_catalog]
  · simp only [compute_priced_catalog, List.map_map]
    rfl

/-- C6 (amended): a transport failure is caught inside `get`, which returns
Python `None` (never the raw exception); `get_full_catalog` then fails with
`AttributeError` on that `None` — no TransportError classification exists. -/
theorem claim_C6 (e : RequestErr) :
    get_model (α := Envelope CatalogResult) (.error e) = .ok .noneVal ∧
    get_full_catalog_model (.error e) = .error .attributeError :=
  ⟨rfl, rfl⟩

/-- C6 counterexample: on a timeout the GET helper returns the non-error
value `None`, and the error that eventually surfaces from the catalog fetch
is an `AttributeError`, not a TransportError. -/
theorem claim_C6_cex :
    get_model (α := Envelope CatalogResult) (.error .timeout) = .ok .noneVal ∧
    get_full_catalog_model (.error .timeout) = .error .attributeError ∧
    PyErr.attributeError ≠ PyErr.transportError :=
  ⟨rfl, rfl, by decide⟩

/-- C7: `unwrap_result` returns `result` exactly when `success` is true and
otherwise fails carrying the `errors` payload; `get_full_catalog` applies
the same envelope rule and builds one `Product` per row by zipping the row
against the columns, preserving row order. -/
theorem claim_C7 :
    (∀ (α : Type) (resp : Envelope α),
      (resp.success = true → unwrap_result resp = .ok resp.result) ∧
      (resp.success = false →
        unwrap_result resp = .error (.valueError ("API Error: " ++ resp.errors)))) ∧
    (∀ (r : HttpResp (Envelope CatalogResult)) (ps : List Product),
      r.status < 400 → r.isJson = true → r.body.success = true →
      rowsToProducts r.body.result.columns r.body.result.rows = some ps →
      get_full_catalog_model (.ok r) = .ok ps ∧
      ps.length = r.body.result.rows.length ∧
      (∀ (i : ℕ) (h1 : i < ps.length) (h2 : i < r.body.result.rows.length),
        buildProduct r.body.result.columns (r.body.result.rows.get ⟨i, h2⟩) =
          some (ps.get ⟨i, h1⟩))) ∧
    (∀ (r : HttpResp (Envelope CatalogResult)),
      r.status < 400 → r.isJson = true → r.body.success = false →
      get_full_catalog_model (.ok r) =
        .error (.valueError ("API Error: " ++ r.body.errors))) := by
  refine ⟨?_, ?_, ?_⟩
  · intro α resp
    constructor
    · intro h; unfold unwrap_result; rw [h]; rfl
    · intro h; unfold unwrap_result; rw [h]; rfl
  · intro r ps hst hjson hsucc hrows
    have h4 : ¬ 400 ≤ r.status := by omega
    have hget : get_model (.ok r) = .ok (.jsonVal r.body) := by
      unfold get_model
      simp [h4, hjson]
    refine ⟨?_, rowsToProducts_length _ _ _ hrows, rowsToProducts_get _ _ _ hrows⟩
    unfold get_full_catalog_model
    rw [hget]
    simp [hsucc, hrows]
  · intro r hst hjson hsucc
    have h4 : ¬ 400 ≤ r.status := by omega
    have hget : get_model (.ok r) = .ok (.jsonVal r.body) := by
      unfold get_model
      simp [h4, hjson]
    unfold get_full_catalog_model
    rw [hget]
    simp [hsucc]

theorem claim_C7_witness :
    get_full_catalog_model (.ok resp0) =
      .ok [mkTestProduct none none (some 100) false] ∧
    [mkTestProduct none none (some 100) false].length =
      resp0.body.result.rows.length :=
  ⟨((claim_C7.2.1 resp0 [mkTestProduct none none (some 100) false]
      (by decide) rfl rfl rfl).1),
   ((claim_C7.2.1 resp0 [mkTestProduct none none (some 100) false]
      (by decide) rfl rfl rfl).2.1)⟩

/-- C8 (amended): the signer performs no credential validation and never
raises a ConfigurationError: with empty appId and key it silently returns a
credential, with `APP_ID` unset it embeds the literal `"None"` in the
message and credential, and with `API_KEY` unset it fails with
`AttributeError`. -/
theorem claim_C8 (prims : HashPrims) (method path query body : String)
    (t : ℕ) (draws : ℕ → Fin 62) :
    (generate_auth_header prims (some "") (some "") method path query body t draws).isOk
      = true ∧
    (∀ k, generate_auth_header prims none (some k) method path query body t draws =
      .ok ("smx None:" ++
        prims.hmacSha256b64 k
          ("None" ++ method.toUpper ++ path.toLower ++ query ++ toString t ++
            generate_nonce draws ++ md5_base64 prims body) ++
        ":" ++ toString t ++ ":" ++ generate_nonce draws)) ∧
    (∀ a, generate_auth_header prims a none method path query body t draws =
      .error .attributeError) ∧
    (∀ a k, generate_auth_header prims a k method path query body t draws ≠
      .error .configurationError) := by
  refine ⟨rfl, fun k => rfl, fun a => rfl, ?_⟩
  intro a k
  cases k with
  | none => simp [generate_auth_header]
  | some key => simp [generate_auth_header]

theorem claim_C8_witness :
    (generate_auth_header prims0 (some "") (some "") "GET" "/" "" "" 0 draws0).isOk
      = true ∧
    generate_auth_header prims0 (some "app") none "GET" "/" "" "" 0 draws0 =
      .error .attributeError :=
  ⟨(claim_C8 prims0 "GET" "/" "" "" 0 draws0).1,
   (claim_C8 prims0 "GET" "/" "" "" 0 draws0).2.2.1 (some "app")⟩

/-- C8 counterexample: with appId and secret key both set to the empty
string the signer succeeds and returns a credential — it does not fail with
a ConfigurationError-classified error. -/
theorem claim_C8_cex :
    generate_auth_header prims0 (some "") (some "") "GET" "/" =
      .ok "smx :SIG:0:aaaaaaaaaaaaaaaa" ∧
    (Except.ok "smx :SIG:0:aaaaaaaaaaaaaaaa" : Except PyErr String) ≠
      .error .configurationError :=
  ⟨rfl, by simp⟩

/-- C9 (amended): a staging failure never aborts the run and exactly one
result record is produced; notification outcomes never change the result.
In the FastAPI variant the result carries a null `location_url`, handoff is
attempted in json-fallback mode, a start-notification attempt is made, but
no error-notification attempt occurs.  In the Lambda variant handoff is
skipped and an error notification is attempted; `s3_key`/`timestamp` are
null only when the failure precedes key construction — when `put_object`
itself raises they still carry the constructed key and timestamp. -/
theorem claim_C9 :
    (∀ (env : MainEnv) (ps : List Product) (err : String),
      env.fetchResult = .ok ps → env.uploadResult = .error err →
      main_run_job env = .ok
        ({ count := (compute_priced_catalog ps).length
         , file := if env.saveOutputFiles then some (tempFileName env) else none
         , saved_files := env.saveOutputFiles
         , location_url := none },
         [.wroteTempFile (tempFileName env), .uploadAttempt,
          .startEmailAttempt, .toolswiftJsonFallback])) ∧
    (∀ (env : MainEnv) (ps : List Product) (err : String)
        (r : MainRunResult) (evs : List JobEvent),
      env.fetchResult = .ok ps → env.uploadResult = .error err →
      main_run_job env = .ok (r, evs) →
      JobEvent.errorEmailAttempt ∉ evs ∧ JobEvent.startEmailAttempt ∈ evs ∧
        JobEvent.toolswiftJsonFallback ∈ evs ∧ r.location_url = none) ∧
    (∀ (env : MainEnv) (se tw : Except String Unit) (de : Except String Unit),
      main_run_job
        { env with startEmailResult := se, toolswiftResult := tw, deleteResult := de } =
        main_run_job env) ∧
    (∀ (env : LambdaEnv) (ps : List Product),
      env.fetchResult = .ok ps → env.bucketName = none →
      lambda_run_job env = .ok
        ({ count := (compute_priced_catalog ps).length, s3_key := none, timestamp := none },
         [.startEmailAttempt, .errorEmailAttempt])) ∧
    (∀ (env : LambdaEnv) (ps : List Product) (b err : String),
      env.fetchResult = .ok ps → env.bucketName = some b →
      env.putResult = .error err →
      lambda_run_job env = .ok
        ({ count := (compute_priced_catalog ps).length
         , s3_key := some (s3KeyName env)
         , timestamp := some env.ts },
         [.startEmailAttempt, .errorEmailAttempt])) ∧
    (∀ (env : LambdaEnv) (se ee : Except String Unit),
      lambda_run_job { env with startEmailResult := se, errorEmailResult := ee } =
        lambda_run_job env) := by
  refine ⟨?_, ?_, fun env se tw de => rfl, ?_, ?_, fun env se ee => rfl⟩
  · intro env ps err h1 h2
    unfold main_run_job
    rw [h1]
    simp only [h2]
    cases h : env.saveOutputFiles <;> simp
  · intro env ps err r evs h1 h2 h3
    have h4 := h3.symm.trans ((by
      unfold main_run_job
      rw [h1]
      simp only [h2]
      cases h : env.saveOutputFiles <;> simp :
        main_run_job env = .ok
          ({ count := (compute_priced_catalog ps).length
           , file := if env.saveOutputFiles then some (tempFileName env) else none
           , saved_files := env.saveOutputFiles
           , location_url := none },
           [.wroteTempFile (tempFileName env), .uploadAttempt,
            .startEmailAttempt, .toolswiftJsonFallback])))
    injection h4 with h5
    injection h5 with h6 h7
    subst h6 h7
    refine ⟨by simp, by simp, by simp, rfl⟩
  · intro env ps h1 h2
    unfold lambda_run_job
    rw [h1]
    simp only [h2]
    rfl
  · intro env ps b err h1 h2 h3
    unfold lambda_run_job
    rw [h1]
    simp only [h2, h3]
    rfl

theorem claim_C9_witness :
    main_run_job envMainStageFail = .ok
      ({ count := (compute_priced_catalog []).length
       , file := if envMainStageFail.saveOutputFiles then
           some (tempFileName envMainStageFail) else none
       , saved_files := envMainStageFail.saveOutputFiles
       , location_url := none },
       [.wroteTempFile (tempFileName envMainStageFail), .uploadAttempt,
        .startEmailAttempt, .toolswiftJsonFallback]) ∧
    lambda_run_job envLambdaPutFail = .ok
      ({ count := (compute_priced_catalog []).length
       , s3_key := some (s3KeyName envLambdaPutFail)
       , timestamp := some envLambdaPutFail.ts },
       [.startEmailAttempt, .errorEmailAttempt]) :=
  ⟨claim_C9.1 envMainStageFail [] "boom" rfl rfl,
   claim_C9.2.2.2.2.1 envLambdaPutFail [] "bkt" "boom" rfl rfl rfl⟩

/-- C9 counterexample: with the staging upload failing, the FastAPI run
attempts no error notification at all, and the Lambda run still reports the
constructed S3 key in its result even though the put failed. -/
theorem claim_C9_cex :
    (main_run_job envMainStageFail).toOption.map
        (fun x => decide (JobEvent.errorEmailAttempt ∈ x.2)) = some false ∧
    (lambda_run_job envLambdaPutFail).toOption.map (fun x => x.1.s3_key) =
      some (some "pricing_data/priced_catalog_T.json") :=
  ⟨rfl, rfl⟩

/-- C10: invoked without a location URL (json fallback), the handoff request
body is exactly `\x7b"Location": null, "upsert": true\x7d`; the
`priced_catalog` and `product_count` arguments never enter the request. -/
theorem claim_C10 (cfg : ToolswiftConfig) (pc pcAlt : List PricedEntry)
    (n nAlt : ℕ) (h1 : truthy cfg.storeKey = true)
    (h2 : truthy cfg.bearerToken = true) :
    (start_toolswift_upload_with_json cfg pc n none).map ToolswiftRequest.payload =
      .ok [("Location", Atom.anull), ("upsert", Atom.abool true)] ∧
    start_toolswift_upload_with_json cfg pc n none =
      start_toolswift_upload_with_json cfg pcAlt nAlt none ∧
    jsonDumpsFlat false "," ":" [("Location", Atom.anull), ("upsert", Atom.abool true)] =
      "\x7b\"Location\":null,\"upsert\":true\x7d" := by
  refine ⟨?_, rfl, rfl⟩
  unfold start_toolswift_upload_with_json
  rw [h1, h2]
  rfl

theorem claim_C10_witness :
    (start_toolswift_upload_with_json cfg0 [] 0 none).map ToolswiftRequest.payload =
      .ok [("Location", Atom.anull), ("upsert", Atom.abool true)] ∧
    start_toolswift_upload_with_json cfg0 [] 0 none =
      start_toolswift_upload_with_json cfg0 [pricedEntryOf prodCost100] 7 none :=
  ⟨(claim_C10 cfg0 [] [pricedEntryOf prodCost100] 0 7 rfl rfl).1,
   (claim_C10 cfg0 [] [pricedEntryOf prodCost100] 0 7 rfl rfl).2.1⟩

end FlightcraftHPD
